import Mathlib

/-!
Verification development for the PaperSearch citation-graph application.

The frontend (src/frontend/FirstTask and the unnamed React components) is
embedded directly from the TypeScript source.  The backend engine
(LLMcall.py: fetcher, cache, resolver, traversal) ships only as
documentation (backend/SETUP.md, backend/README.md); those components are
modelled from the specification and are marked as such in their doc
comments.
-/

/-! ## Data model (src/frontend/FirstTask/src/types.ts) -/

/-- Embeds the `Paper` interface of types.ts: optional TypeScript fields
become `Option`, `authors` keeps only the ordered list of names. -/
structure Paper where
  paperId : String
  title : String
  abstract : Option String := none
  authors : Option (List String) := none
  year : Option Int := none
  citationCount : Option Int := none
  referenceCount : Option Int := none
  url : Option String := none
  relevance_rating : Option String := none
deriving DecidableEq, Repr

/-- Embeds `QueryComponent` of types.ts. -/
structure QueryComponent where
  component : String
  description : String
  keywords : List String
deriving DecidableEq, Repr

/-- Embeds `QueryDecompositionResponse` of types.ts. -/
structure QueryDecompositionResponse where
  original_query : String
  components : List QueryComponent
  main_concepts : List String
  relationships : List String
deriving DecidableEq, Repr

/-- Embeds `PaperWithNestedCitations` of types.ts. -/
structure PaperWithNestedCitations where
  paper : Paper
  nested_forward_citations : List Paper
  nested_backward_citations : List Paper
deriving DecidableEq, Repr

/-- Embeds `CitationSearchResponse` of types.ts. -/
structure CitationSearchResponse where
  query : String
  query_decomposition : QueryDecompositionResponse
  most_relevant_paper : Paper
  forward_citations : List PaperWithNestedCitations
  backward_citations : List PaperWithNestedCitations
  total_forward : Nat
  total_backward : Nat
deriving DecidableEq, Repr

/-! ## GraphVisualization.tsx: node/link construction (lines 52-149)

The `useMemo` body builds `graphNodes` and `graphLinks` by pushing one
entry per occurrence in the response, with no identity check.  The
geometric position pass (lines 151-229) only mutates `x`/`y` and is not
part of the logical graph, so nodes are embedded without coordinates. -/

/-- Embeds `GraphNode` of GraphVisualization.tsx (minus the mutable
`x`/`y` layout coordinates). -/
structure GraphNode where
  id : String
  paper : Paper
  level : Nat
  direction : String
deriving DecidableEq, Repr

/-- Embeds `GraphLink` of GraphVisualization.tsx. -/
structure GraphLink where
  source : String
  target : String
deriving DecidableEq, Repr

/-- The level-2 node pushed for a nested paper: level 2 and the branch
direction of its level-1 parent, exactly as in the source. -/
def nestedNode (dir : String) (np : Paper) : GraphNode :=
  { id := np.paperId, paper := np, level := 2, direction := dir }

/-- The nodes pushed per forward citation: its level-1 node, then one
level-2 node per nested forward paper, then one per nested backward
paper. -/
def forwardBlockNodes (pw : PaperWithNestedCitations) : List GraphNode :=
  { id := pw.paper.paperId, paper := pw.paper, level := 1, direction := "forward" } ::
    (pw.nested_forward_citations.map (nestedNode "forward") ++
     pw.nested_backward_citations.map (nestedNode "forward"))

/-- The nodes pushed per backward citation: its level-1 node, then one
level-2 node per nested backward paper, then one per nested forward
paper. -/
def backwardBlockNodes (pw : PaperWithNestedCitations) : List GraphNode :=
  { id := pw.paper.paperId, paper := pw.paper, level := 1, direction := "backward" } ::
    (pw.nested_backward_citations.map (nestedNode "backward") ++
     pw.nested_forward_citations.map (nestedNode "backward"))

/-- Embeds the node list built by the `useMemo` in GraphVisualization.tsx:
center node, then for each forward citation its level-1 node followed by
its nested forward and nested backward nodes, then the same for backward
citations.  One `push` per occurrence, exactly as in the source. -/
def graphNodesOf (data : CitationSearchResponse) : List GraphNode :=
  { id := data.most_relevant_paper.paperId, paper := data.most_relevant_paper,
    level := 0, direction := "center" } ::
    (data.forward_citations.flatMap forwardBlockNodes ++
     data.backward_citations.flatMap backwardBlockNodes)

/-- Embeds the link list built by the same `useMemo`: center→forward,
forward→nestedForward, nestedBackward→forward, backward→center,
nestedBackward→backward, backward→nestedForward, in push order. -/
def graphLinksOf (data : CitationSearchResponse) : List GraphLink :=
  let centerId := data.most_relevant_paper.paperId
  let forwardBlock := data.forward_citations.flatMap (fun pw =>
    { source := centerId, target := pw.paper.paperId } ::
      (pw.nested_forward_citations.map (fun np =>
        { source := pw.paper.paperId, target := np.paperId }) ++
       pw.nested_backward_citations.map (fun np =>
        { source := np.paperId, target := pw.paper.paperId })))
  let backwardBlock := data.backward_citations.flatMap (fun pw =>
    { source := pw.paper.paperId, target := centerId } ::
      (pw.nested_backward_citations.map (fun np =>
        { source := np.paperId, target := pw.paper.paperId }) ++
       pw.nested_forward_citations.map (fun np =>
        { source := pw.paper.paperId, target := np.paperId })))
  forwardBlock ++ backwardBlock

/-! ## PaperListView (src/unnamed/part_001): flatten and sort -/

/-- Embeds `PaperWithSource` of PaperListView: the spread paper plus its
provenance `source` string and level. -/
structure PaperWithSource where
  paper : Paper
  source : String
  level : Nat
deriving DecidableEq, Repr

/-- Embeds the `allPapers` accumulation of PaperListView: seed first, then
per forward citation the level-1 paper, its nested forward papers and its
nested backward papers, then the same for backward citations — one push
per occurrence in response order. -/
def allPapers (data : CitationSearchResponse) : List PaperWithSource :=
  { paper := data.most_relevant_paper, source := "Most Relevant Paper", level := 0 } ::
    (data.forward_citations.flatMap (fun pw =>
      { paper := pw.paper, source := "Forward Citation", level := 1 } ::
        (pw.nested_forward_citations.map (fun np =>
          { paper := np, source := "Nested Forward Citation", level := 2 }) ++
         pw.nested_backward_citations.map (fun np =>
          { paper := np, source := "Nested Backward Citation (from Forward)", level := 2 }))) ++
     data.backward_citations.flatMap (fun pw =>
      { paper := pw.paper, source := "Backward Citation", level := 1 } ::
        (pw.nested_backward_citations.map (fun np =>
          { paper := np, source := "Nested Backward Citation", level := 2 }) ++
         pw.nested_forward_citations.map (fun np =>
          { paper := np, source := "Nested Forward Citation (from Backward)", level := 2 }))))

/-- Embeds the `ratingOrder` record of PaperListView, together with its
`|| 999` fallback for unknown rating strings. -/
def ratingOrder (rating : String) : Nat :=
  if rating = "Perfectly Relevant" then 1
  else if rating = "Relevant" then 2
  else if rating = "Somewhat Relevant" then 3
  else 999

/-- The rating string used by the comparator: `a.relevance_rating ||
'Somewhat Relevant'`. -/
def effectiveRating (p : PaperWithSource) : String :=
  p.paper.relevance_rating.getD "Somewhat Relevant"

/-- The citation count used by the comparator: `a.citationCount || 0`. -/
def effectiveCitations (p : PaperWithSource) : Int :=
  p.paper.citationCount.getD 0

/-- The sort comparator of PaperListView as a boolean "a comes no later
than b" relation: ascending `ratingOrder`, ties broken by descending
citation count.  `c(a,b) <= 0` for the source's numeric comparator. -/
def paperLE (a b : PaperWithSource) : Bool :=
  if ratingOrder (effectiveRating a) = ratingOrder (effectiveRating b) then
    effectiveCitations b ≤ effectiveCitations a
  else
    ratingOrder (effectiveRating a) ≤ ratingOrder (effectiveRating b)

/-- Embeds `sortedPapers` of PaperListView: a stable sort of `allPapers`
by the rating/citation comparator.  JavaScript `Array.prototype.sort` is
stable, and a stable sort by a total preorder is unique, so any stable
sort with the same "comes no later" relation matches it. -/
def sortedPapers (data : CitationSearchResponse) : List PaperWithSource :=
  (allPapers data).insertionSort (fun a b => paperLE a b = true)

/-! ## services/api.ts: the exposed search operation -/

/-- The JSON body shape POSTed to /citation-search-rated. -/
structure SearchRequest where
  query : String
  forward_limit : Nat
  backward_limit : Nat
deriving DecidableEq, Repr

/-- Embeds the request construction of `searchPapers(query)` in
services/api.ts: the body hardcodes `forward_limit: 3` and
`backward_limit: 3`. -/
def searchPapersRequest (query : String) : SearchRequest :=
  { query := query, forward_limit := 3, backward_limit := 3 }

/-! ## App (src/unnamed/part_000): handleSearch -/

/-- The React state of App: `query`, `loading`, `data`, `error`. -/
structure AppState where
  query : String
  loading : Bool
  data : Option CitationSearchResponse
  error : Option String
deriving DecidableEq, Repr

/-- The whitespace class removed by JavaScript `String.prototype.trim`:
ASCII whitespace, NBSP, BOM and the line/paragraph separators. -/
def isJsSpace (c : Char) : Bool :=
  c ∈ [' ', '\t', '\n', '\r', '\x0b', '\x0c', '\u00A0', '\uFEFF', '\u2028', '\u2029']

/-- JavaScript `String.prototype.trim`: drop leading and trailing
whitespace characters. -/
def jsTrim (s : String) : String :=
  String.mk (((s.toList.dropWhile isJsSpace).reverse.dropWhile isJsSpace).reverse)

/-- Embeds `handleSearch` of App as a step function.  The outcome of the
awaited `searchPapers` call is passed in as an oracle (`result`); the
second component records the request actually issued (`none` when the
guard `if (!query.trim()) return` fires).  On completion the source has
set `loading` back to `false` and either `data` (success, `error`
cleared) or `error` (failure, `data` cleared). -/
def handleSearch (s : AppState) (result : Except String CitationSearchResponse) :
    AppState × Option SearchRequest :=
  if jsTrim s.query = "" then (s, none)
  else
    match result with
    | .ok r =>
        ({ s with loading := false, data := some r, error := none },
         some (searchPapersRequest s.query))
    | .error e =>
        ({ s with loading := false, data := none, error := some e },
         some (searchPapersRequest s.query))

/-! ## Resilient Fetcher (spec 4.1, SETUP.md "Retry Logic")

The backend implementation (LLMcall.py) is not part of the shipped
sources; the fetcher is modelled from the specification. -/

/-- Modelled from the spec: terminal classification of a fetch.
`Exhausted` after all attempts failed retryably, `Fatal` for a
non-retryable condition (4xx other than rate-limit, malformed
response). -/
inductive FetchError where
  | Exhausted
  | Fatal
deriving DecidableEq, Repr

/-- Modelled from the spec: how a single attempt ends.  `retryable`
covers network timeout, 5xx and rate-limit; `fatal` covers the
non-retryable conditions. -/
inductive FetchOutcome (α : Type) where
  | success (v : α)
  | retryable
  | fatal
deriving DecidableEq, Repr

/-- Modelled from the spec and SETUP.md: "10 attempts". -/
def maxAttempts : Nat := 10

/-- Modelled from the spec and SETUP.md: "with 1 second delay". -/
def delayMs : Nat := 1000

/-- Modelled from the spec: the retry loop of the Resilient Fetcher.
`oracle i` is the outcome of the i-th attempt (0-based); `k` is the
number of attempts still allowed.  Returns the result, the number of
attempts performed, and the total inter-attempt delay in milliseconds
(a fixed `delayMs` wait before each re-attempt, none after the last
failure). -/
def retryLoop (oracle : Nat → FetchOutcome α) :
    Nat → Nat → Nat → Except FetchError α × Nat × Nat
  | 0, used, waited => (.error .Exhausted, used, waited)
  | k + 1, used, waited =>
    match oracle used with
    | .success v => (.ok v, used + 1, waited)
    | .fatal => (.error .Fatal, used + 1, waited)
    | .retryable =>
        if k = 0 then (.error .Exhausted, used + 1, waited)
        else retryLoop oracle k (used + 1) (waited + delayMs)

/-- Modelled from the spec: a Fetcher call — up to `maxAttempts`
attempts, starting with no attempts performed and no delay accrued. -/
def fetchWithRetry (oracle : Nat → FetchOutcome α) : Except FetchError α × Nat × Nat :=
  retryLoop oracle maxAttempts 0 0

/-! ## Cache Layer (spec 4.2, SETUP.md cache endpoints)

Modelled from the specification: an in-memory map from request keys to
values plus hit/miss counters.  The optional durable mirror is a
deployment choice, not a correctness requirement, and is not modelled. -/

/-- Modelled from the spec: the Cache Layer state. -/
structure Cache (α : Type) where
  entries : List (String × α)
  hitCount : Nat
  missCount : Nat
deriving DecidableEq, Repr

/-- An empty cache. -/
def Cache.empty {α : Type} : Cache α :=
  { entries := [], hitCount := 0, missCount := 0 }

/-- First binding for `key`, if any. -/
def Cache.lookup (c : Cache α) (key : String) : Option α :=
  match c.entries.find? (fun kv => kv.1 = key) with
  | some kv => some kv.2
  | none => none

/-- Modelled from the spec: `getOrFetch(key, fetchFn)` — serve the cached
value when present; otherwise invoke `fetchFn` and store the result under
`key` only on success, never memoizing a failure.  The boolean records
whether `fetchFn` was invoked. -/
def getOrFetch (c : Cache α) (key : String) (fetchFn : Unit → Except FetchError α) :
    Except FetchError α × Cache α × Bool :=
  match c.lookup key with
  | some v => (.ok v, { c with hitCount := c.hitCount + 1 }, false)
  | none =>
    match fetchFn () with
    | .ok v =>
        (.ok v,
         { c with entries := (key, v) :: c.entries, missCount := c.missCount + 1 },
         true)
    | .error e =>
        (.error e, { c with missCount := c.missCount + 1 }, true)

/-- Modelled from the spec: `clear()` removes all entries. -/
def Cache.clear (c : Cache α) : Cache α :=
  { c with entries := [] }

/-- Modelled from the spec: `stats() -> {entryCount, hitCount, missCount}`. -/
structure CacheStats where
  entryCount : Nat
  hitCount : Nat
  missCount : Nat
deriving DecidableEq, Repr

/-- Modelled from the spec: the statistics of a cache. -/
def Cache.stats (c : Cache α) : CacheStats :=
  { entryCount := c.entries.length, hitCount := c.hitCount, missCount := c.missCount }

/-! ## Paper Resolver (spec 4.3, SETUP.md "Intelligent Search")

Modelled from the specification: LLMcall.py is not shipped. -/

/-- Modelled from the spec: resolver failure. -/
inductive ResolveError where
  | NoPaperFound
deriving DecidableEq, Repr

/-- First query in `qs` whose search yields any result, with the head of
that result list. -/
def firstHit (search : String → List Paper) : List String → Option Paper
  | [] => none
  | q :: qs =>
    match search q with
    | [] => firstHit search qs
    | p :: _ => some p

/-- Modelled from the spec: `resolve(query, decomposition)` — take the top
result of `search(query)` if non-empty; otherwise the first component
name whose search is non-empty, in decomposition order; otherwise the
first keyword whose search is non-empty; otherwise `NoPaperFound`. -/
def resolve (search : String → List Paper) (query : String)
    (d : QueryDecompositionResponse) : Except ResolveError Paper :=
  match search query with
  | p :: _ => .ok p
  | [] =>
    match firstHit search (d.components.map (fun c => c.component)) with
    | some p => .ok p
    | none =>
      match firstHit search (d.components.flatMap (fun c => c.keywords)) with
      | some p => .ok p
      | none => .error .NoPaperFound

/-! ## Citation Traversal Engine (spec 4.4)

Modelled from the specification: LLMcall.py is not shipped.  The engine
threads an explicit state: the request-keyed cache of raw citation lists
and a fetch-call counter.  The external API is an oracle indexed by the
call counter, so that a *later* call may answer differently — determinism
of repeated builds must then come from the cache, as the spec claims. -/

/-- Modelled from the spec: the two citation operations of the external
paper API used by the engine, keyed by paperId. -/
inductive ApiOp where
  | citationsOf (paperId : String)
  | referencesOf (paperId : String)
deriving DecidableEq, Repr

/-- Modelled from the spec: the engine-visible shared state — the cache of
raw fetch results keyed by request signature, plus the number of fetches
actually performed (the mock-Fetcher call counter of the spec's tests). -/
structure EngineState where
  cache : List (ApiOp × List Paper)
  calls : Nat
deriving DecidableEq, Repr

/-- First cached value for `op`, if any. -/
def lookupOp (entries : List (ApiOp × List Paper)) (op : ApiOp) : Option (List Paper) :=
  match entries.find? (fun kv => kv.1 = op) with
  | some kv => some kv.2
  | none => none

/-- Modelled from the spec: one fetch through Cache+Fetcher.  A cache hit
is served as-is; a miss consults the oracle at the current call counter,
stores the result only on success (failures are never memoized) and bumps
the counter. -/
def cachedFetch (oracle : Nat → ApiOp → Except FetchError (List Paper))
    (op : ApiOp) (s : EngineState) : Except FetchError (List Paper) × EngineState :=
  match lookupOp s.cache op with
  | some v => (.ok v, s)
  | none =>
    match oracle s.calls op with
    | .ok v => (.ok v, { cache := (op, v) :: s.cache, calls := s.calls + 1 })
    | .error e => (.error e, { s with calls := s.calls + 1 })

/-- Modelled from the spec: level-2 expansion — for each level-1 paper
fetch its citing and cited papers, truncate each list to `nestedLimit`,
and attach them to the originating paper; any fetch failure aborts the
whole expansion with that error. -/
def expandLevel2 (oracle : Nat → ApiOp → Except FetchError (List Paper))
    (nestedLimit : Nat) :
    List Paper → EngineState → Except FetchError (List PaperWithNestedCitations) × EngineState
  | [], s => (.ok [], s)
  | p :: ps, s =>
    match cachedFetch oracle (.citationsOf p.paperId) s with
    | (.error e, s1) => (.error e, s1)
    | (.ok fwd, s1) =>
      match cachedFetch oracle (.referencesOf p.paperId) s1 with
      | (.error e, s2) => (.error e, s2)
      | (.ok bwd, s2) =>
        match expandLevel2 oracle nestedLimit ps s2 with
        | (.error e, s3) => (.error e, s3)
        | (.ok rest, s3) =>
            (.ok ({ paper := p,
                    nested_forward_citations := fwd.take nestedLimit,
                    nested_backward_citations := bwd.take nestedLimit } :: rest), s3)

/-- Modelled from the spec: the assembled `CitationGraph` response root. -/
structure CitationGraph where
  seedPaper : Paper
  forwardCitations : List PaperWithNestedCitations
  backwardCitations : List PaperWithNestedCitations
  totalForward : Nat
  totalBackward : Nat
deriving DecidableEq, Repr

/-- Modelled from the spec: `buildGraph(seed, forwardLimit, backwardLimit,
nestedLimit)` — fetch the papers citing the seed and the papers it cites,
keep the first `forwardLimit` / `backwardLimit` of them, expand each kept
level-1 paper to its nested citations, and assemble the graph with
`totalForward`/`totalBackward` set to the counts actually returned.  Any
fetch failure in any phase aborts the whole build with that error; the
state (with every successfully fetched entry cached) survives either
way. -/
def buildGraph (oracle : Nat → ApiOp → Except FetchError (List Paper))
    (seed : Paper) (forwardLimit backwardLimit nestedLimit : Nat)
    (s : EngineState) : Except FetchError CitationGraph × EngineState :=
  match cachedFetch oracle (.citationsOf seed.paperId) s with
  | (.error e, s1) => (.error e, s1)
  | (.ok fwdAll, s1) =>
    match cachedFetch oracle (.referencesOf seed.paperId) s1 with
    | (.error e, s2) => (.error e, s2)
    | (.ok bwdAll, s2) =>
      match expandLevel2 oracle nestedLimit (fwdAll.take forwardLimit) s2 with
      | (.error e, s3) => (.error e, s3)
      | (.ok fwdNested, s3) =>
        match expandLevel2 oracle nestedLimit (bwdAll.take backwardLimit) s3 with
        | (.error e, s4) => (.error e, s4)
        | (.ok bwdNested, s4) =>
            (.ok { seedPaper := seed,
                   forwardCitations := fwdNested,
                   backwardCitations := bwdNested,
                   totalForward := fwdNested.length,
                   totalBackward := bwdNested.length }, s4)

/-! ## Concrete inputs used by counterexamples and witnesses -/

/-- A trivial decomposition, for responses whose decomposition is
irrelevant to the property at hand. -/
def emptyDecomposition : QueryDecompositionResponse :=
  { original_query := "q", components := [], main_concepts := [], relationships := [] }

/-- Seed paper of the examples. -/
def paper0 : Paper := { paperId := "P0", title := "Seed Paper" }

/-- A level-1 paper. -/
def paper1 : Paper := { paperId := "P1", title := "Paper One" }

/-- Another level-1 paper. -/
def paper2 : Paper := { paperId := "P2", title := "Paper Two" }

/-- A reference of the seed. -/
def paper3 : Paper := { paperId := "P3", title := "Paper Three" }

/-- A response in which the seed `P0` is rediscovered at level 2 inside
the nested forward citations of the level-1 paper `P1`. -/
def dupResponse : CitationSearchResponse :=
  { query := "q",
    query_decomposition := emptyDecomposition,
    most_relevant_paper := paper0,
    forward_citations :=
      [{ paper := paper1,
         nested_forward_citations := [paper0],
         nested_backward_citations := [] }],
    backward_citations := [],
    total_forward := 1,
    total_backward := 0 }

/-- The seed of the sorting example: rated only "Somewhat Relevant". -/
def seedSomewhat : Paper :=
  { paperId := "P0", title := "Seed Paper",
    relevance_rating := some "Somewhat Relevant" }

/-- A forward citation rated "Perfectly Relevant", which the list view
moves ahead of the seed. -/
def fwdPerfect : Paper :=
  { paperId := "P1", title := "Paper One",
    relevance_rating := some "Perfectly Relevant" }

/-- A response whose API order (seed first, then the forward citation) is
reordered by the list view's rating sort. -/
def sortResponse : CitationSearchResponse :=
  { query := "q",
    query_decomposition := emptyDecomposition,
    most_relevant_paper := seedSomewhat,
    forward_citations :=
      [{ paper := fwdPerfect,
         nested_forward_citations := [],
         nested_backward_citations := [] }],
    backward_citations := [],
    total_forward := 1,
    total_backward := 0 }

/-- A well-behaved API oracle: the seed `P0` has two citing papers and one
reference; nothing else has citations.  The forward list is shorter than
the forward limit 3 used by the witnesses. -/
def okOracle : Nat → ApiOp → Except FetchError (List Paper) :=
  fun _ op =>
    match op with
    | .citationsOf pid => if pid = "P0" then .ok [paper1, paper2] else .ok []
    | .referencesOf pid => if pid = "P0" then .ok [paper3] else .ok []

/-- An oracle that always fails the level-2 fetch for `P2` with
`Exhausted` while answering everything else: the spec's scenario of one
level-1 branch failing during concurrent level-2 expansion. -/
def failingOracle : Nat → ApiOp → Except FetchError (List Paper) :=
  fun _ op =>
    match op with
    | .citationsOf pid =>
        if pid = "P0" then .ok [paper1, paper2, paper3]
        else if pid = "P2" then .error .Exhausted
        else .ok []
    | .referencesOf _ => .ok []

/-- The graph the well-behaved oracle produces for seed `P0` with limits
(3, 3, 2): two forward nodes (fewer than the limit), one backward node. -/
def graphW : CitationGraph :=
  { seedPaper := paper0,
    forwardCitations :=
      [{ paper := paper1, nested_forward_citations := [], nested_backward_citations := [] },
       { paper := paper2, nested_forward_citations := [], nested_backward_citations := [] }],
    backwardCitations :=
      [{ paper := paper3, nested_forward_citations := [], nested_backward_citations := [] }],
    totalForward := 2, totalBackward := 1 }

/-- The engine state after building `graphW` from an empty cache: one
cache entry per fetched request, eight fetch calls. -/
def stateW : EngineState :=
  { cache :=
      [(.referencesOf "P3", []), (.citationsOf "P3", []),
       (.referencesOf "P2", []), (.citationsOf "P2", []),
       (.referencesOf "P1", []), (.citationsOf "P1", []),
       (.referencesOf "P0", [paper3]), (.citationsOf "P0", [paper1, paper2])],
    calls := 8 }

/-- A state whose cache already holds the seed's forward citations
`[P1, P2, P3]`, so that a build reaches the poisoned level-2 fetch for
`P2`. -/
def poisonedState : EngineState :=
  { cache := [(.citationsOf "P0", [paper1, paper2, paper3])], calls := 0 }

/-! # Theorems -/

/-! ## Helper lemmas -/

/-- A string all of whose characters are JavaScript whitespace trims to
the empty string. -/
theorem jsTrim_of_all_space (s : String) (h : ∀ c ∈ s.toList, isJsSpace c = true) :
    jsTrim s = "" := by
  unfold jsTrim
  rw [List.dropWhile_eq_nil_iff.mpr h]
  rfl

/-! ## Claim C1 -/

/-- Claim C1 (code_bug evidence): deduplication by identity fails in the
node construction of GraphVisualization.tsx.  On a response whose seed
`P0` is rediscovered inside a nested list, the construction emits two
separate node objects with paperId "P0" — one at level 0 and one at
level 2 — instead of coalescing them, so the emitted id list is not
duplicate-free. -/
theorem C1_duplicate_node_objects :
    (graphNodesOf dupResponse).map GraphNode.id = ["P0", "P1", "P0"] ∧
    ((graphNodesOf dupResponse).map GraphNode.id).count "P0" = 2 ∧
    ¬ ((graphNodesOf dupResponse).map GraphNode.id).Nodup ∧
    (graphNodesOf dupResponse).map GraphNode.level = [0, 1, 2] := by
  refine ⟨rfl, rfl, ?_, rfl⟩
  decide

/-! ## Claim C8 -/

/-- Claim C8 (counterexample): the caller of the exposed frontend
operation cannot choose the limits per request — no query makes
`searchPapers` issue a request with `forward_limit = 5`, because
services/api.ts hardcodes both limits to 3. -/
theorem C8_limits_not_choosable :
    ¬ ∃ q : String, (searchPapersRequest q).forward_limit = 5 := by
  rintro ⟨q, h⟩
  simp [searchPapersRequest] at h

/-- Claim C8 (amended): every request the UI search entry point actually
issues carries the caller's query together with `forward_limit = 3` and
`backward_limit = 3`; the limits are fixed by services/api.ts, not
chosen per request. -/
theorem C8_request_shape (s : AppState) (r : Except String CitationSearchResponse)
    (req : SearchRequest) (h : (handleSearch s r).2 = some req) :
    req.query = s.query ∧ req.forward_limit = 3 ∧ req.backward_limit = 3 := by
  by_cases hq : jsTrim s.query = ""
  · simp [handleSearch, hq] at h
  · cases r <;> simp [handleSearch, hq] at h <;>
      simp [← h, searchPapersRequest]

/-- Claim C8 witness: the request issued for the non-blank query
"transformer" is exactly `{query := "transformer", forward_limit := 3,
backward_limit := 3}`, and the amended theorem applies to it. -/
theorem C8_request_shape_witness :
    (handleSearch { query := "transformer", loading := false, data := none, error := none }
        (.error "boom")).2
      = some { query := "transformer", forward_limit := 3, backward_limit := 3 } ∧
    (({ query := "transformer", forward_limit := 3, backward_limit := 3 } : SearchRequest).query
        = "transformer" ∧
     ({ query := "transformer", forward_limit := 3, backward_limit := 3 } : SearchRequest).forward_limit
        = 3 ∧
     ({ query := "transformer", forward_limit := 3, backward_limit := 3 } : SearchRequest).backward_limit
        = 3) :=
  ⟨rfl,
   C8_request_shape
     { query := "transformer", loading := false, data := none, error := none }
     (.error "boom")
     { query := "transformer", forward_limit := 3, backward_limit := 3 }
     rfl⟩

/-! ## Claim C10 -/

/-- Claim C10: for a query that is empty or consists only of whitespace,
`handleSearch` returns without issuing any network request and leaves the
whole state — loading, data and error included — unchanged. -/
theorem C10_blank_query_noop (s : AppState) (r : Except String CitationSearchResponse)
    (h : ∀ c ∈ s.query.toList, isJsSpace c = true) :
    handleSearch s r = (s, none) := by
  unfold handleSearch
  rw [jsTrim_of_all_space s.query h]
  simp

/-- Claim C10 witness: a three-character whitespace query (space, tab,
newline) with a pending failure outcome changes nothing and issues no
request. -/
theorem C10_blank_query_noop_witness :
    handleSearch { query := " \t\n", loading := false, data := none, error := none }
        (.error "boom")
      = ({ query := " \t\n", loading := false, data := none, error := none }, none) :=
  C10_blank_query_noop _ _ (by decide)

/-! ## Claim C4 -/

/-- After `j` consecutive retryable attempts the retry loop continues
with `j` fewer allowed attempts, `j` more used, and `j` more fixed
delays accrued. -/
theorem retryLoop_shift {α : Type} (oracle : Nat → FetchOutcome α) :
    ∀ (j k used waited : Nat), j < k →
      (∀ i, i < j → oracle (used + i) = .retryable) →
      retryLoop oracle k used waited
        = retryLoop oracle (k - j) (used + j) (waited + j * delayMs) := by
  intro j
  induction j with
  | zero => intro k used waited _ _; simp
  | succ j ih =>
    intro k used waited hjk h
    obtain ⟨k', rfl⟩ : ∃ k', k = k' + 1 := ⟨k - 1, by omega⟩
    have h0 : oracle used = .retryable := by simpa using h 0 (by omega)
    have hk' : ¬ k' = 0 := by omega
    rw [retryLoop, h0]
    simp only [hk', if_false]
    rw [ih k' (used + 1) (waited + delayMs) (by omega)
      (fun i hi => by
        have := h (i + 1) (by omega)
        simpa [Nat.add_assoc, Nat.add_comm 1 i] using this)]
    have e1 : k' + 1 - (j + 1) = k' - j := by omega
    have e2 : used + 1 + j = used + (j + 1) := by omega
    have e3 : waited + delayMs + j * delayMs = waited + (j + 1) * delayMs := by ring
    rw [e2, e3, e1]

/-- Claim C4: every fetch is attempted at most `maxAttempts = 10` times
with a fixed `delayMs = 1000` delay between attempts.  Nine retryable
failures followed by a success return the success value after exactly 10
attempts (and 9 delays); ten retryable failures return
`FetchError.Exhausted` after exactly 10 attempts; a non-retryable first
failure returns `FetchError.Fatal` immediately after 1 attempt, with no
delay and no remaining attempts consumed. -/
theorem C4_retry_policy {α : Type} (oracle : Nat → FetchOutcome α) (v : α) :
    ((∀ i, i < 9 → oracle i = .retryable) → oracle 9 = .success v →
        fetchWithRetry oracle = (.ok v, 10, 9 * delayMs)) ∧
    ((∀ i, i < 10 → oracle i = .retryable) →
        fetchWithRetry oracle = (.error .Exhausted, 10, 9 * delayMs)) ∧
    (oracle 0 = .fatal →
        fetchWithRetry oracle = (.error .Fatal, 1, 0)) := by
  refine ⟨?_, ?_, ?_⟩
  · intro h hs
    unfold fetchWithRetry maxAttempts
    rw [retryLoop_shift oracle 9 10 0 0 (by omega) (fun i hi => by simpa using h i hi)]
    norm_num
    rw [retryLoop, hs]
  · intro h
    unfold fetchWithRetry maxAttempts
    rw [retryLoop_shift oracle 9 10 0 0 (by omega) (fun i hi => by simpa using h i (by omega))]
    have h9 : oracle 9 = .retryable := h 9 (by omega)
    norm_num
    rw [retryLoop, h9]
    simp
  · intro h0
    unfold fetchWithRetry maxAttempts
    rw [retryLoop, h0]

/-- Claim C4 witness: a concrete oracle failing retryably on attempts 0-8
and succeeding on attempt 9 yields the success value after 10 attempts
and 9 seconds of delay; an always-retryable oracle yields `Exhausted`
after 10 attempts; an immediately fatal oracle yields `Fatal` after 1
attempt. -/
theorem C4_retry_policy_witness :
    fetchWithRetry (fun i => if i < 9 then FetchOutcome.retryable else .success 7)
      = (.ok 7, 10, 9 * delayMs) ∧
    fetchWithRetry (fun _ => (FetchOutcome.retryable : FetchOutcome Nat))
      = (.error .Exhausted, 10, 9 * delayMs) ∧
    fetchWithRetry (fun _ => (FetchOutcome.fatal : FetchOutcome Nat))
      = (.error .Fatal, 1, 0) :=
  ⟨(C4_retry_policy (fun i => if i < 9 then FetchOutcome.retryable else .success 7) 7).1
      (fun i hi => by simp [hi]) (by norm_num),
   (C4_retry_policy (fun _ => (FetchOutcome.retryable : FetchOutcome Nat)) 7).2.1
      (fun i _ => rfl),
   (C4_retry_policy (fun _ => (FetchOutcome.fatal : FetchOutcome Nat)) 7).2.2 rfl⟩

/-! ## Claim C5 -/

/-- Claim C5: the cache contract.  A present key is served from cache
without invoking the fetch function; an absent key invokes it and stores
the result only on success, so the key is subsequently served; a failed
fetch is never memoized — the entries are unchanged and the next call for
the same key invokes the fetch function again; after `clear()` the entry
count is 0 and the next identical request performs a fresh fetch. -/
theorem C5_cache_contract {α : Type} (c : Cache α) (key : String)
    (fetchFn : Unit → Except FetchError α) (v : α) (e : FetchError) :
    (c.lookup key = some v →
        getOrFetch c key fetchFn = (.ok v, { c with hitCount := c.hitCount + 1 }, false)) ∧
    (c.lookup key = none → fetchFn () = .ok v →
        getOrFetch c key fetchFn
          = (.ok v,
             { c with entries := (key, v) :: c.entries, missCount := c.missCount + 1 },
             true) ∧
        ((getOrFetch c key fetchFn).2.1).lookup key = some v) ∧
    (c.lookup key = none → fetchFn () = .error e →
        getOrFetch c key fetchFn = (.error e, { c with missCount := c.missCount + 1 }, true) ∧
        ((getOrFetch c key fetchFn).2.1).entries = c.entries ∧
        (getOrFetch (getOrFetch c key fetchFn).2.1 key fetchFn).2.2 = true) ∧
    ((Cache.clear c).stats.entryCount = 0 ∧
     (getOrFetch (Cache.clear c) key fetchFn).2.2 = true) := by
  refine ⟨?_, ?_, ?_, ?_⟩
  · intro hhit
    simp [getOrFetch, hhit]
  · intro hmiss hok
    have hres : getOrFetch c key fetchFn
        = (.ok v,
           { c with entries := (key, v) :: c.entries, missCount := c.missCount + 1 },
           true) := by
      simp [getOrFetch, hmiss, hok]
    refine ⟨hres, ?_⟩
    rw [hres]
    simp [Cache.lookup, List.find?]
  · intro hmiss herr
    have hres : getOrFetch c key fetchFn
        = (.error e, { c with missCount := c.missCount + 1 }, true) := by
      simp [getOrFetch, hmiss, herr]
    refine ⟨hres, ?_, ?_⟩
    · rw [hres]
    · rw [hres]
      have hmiss' : Cache.lookup { c with missCount := c.missCount + 1 } key = none := hmiss
      simp [getOrFetch, hmiss', herr]
  · constructor
    · rfl
    · have hmiss : Cache.lookup (Cache.clear c) key = none := rfl
      cases hf : fetchFn () <;> simp [getOrFetch, hmiss, hf]

/-- Claim C5 witness: with a concrete singleton cache the hit path serves
the stored value without fetching; starting from the empty cache a
successful fetch is stored and later served, a failed fetch leaves the
entries empty and is retried, and clearing yields entry count 0 with a
fresh fetch on the next request. -/
theorem C5_cache_contract_witness :
    (getOrFetch { entries := [("k", 5)], hitCount := 0, missCount := 0 } "k"
        (fun _ => .error .Exhausted)
      = (.ok 5, { entries := [("k", 5)], hitCount := 1, missCount := 0 }, false)) ∧
    (getOrFetch (Cache.empty : Cache Nat) "k" (fun _ => .ok 5)
      = (.ok 5, { entries := [("k", 5)], hitCount := 0, missCount := 1 }, true)) ∧
    (getOrFetch (Cache.empty : Cache Nat) "k" (fun _ => .error .Exhausted)
      = (.error .Exhausted, { entries := [], hitCount := 0, missCount := 1 }, true)) ∧
    ((Cache.clear { entries := [("k", 5)], hitCount := 0, missCount := 0 }).stats.entryCount
      = 0) :=
  ⟨((C5_cache_contract { entries := [("k", 5)], hitCount := 0, missCount := 0 } "k"
      (fun _ => .error .Exhausted) 5 .Exhausted).1 rfl),
   ((C5_cache_contract (Cache.empty : Cache Nat) "k" (fun _ => .ok 5) 5 .Exhausted).2.1
      rfl rfl).1,
   ((C5_cache_contract (Cache.empty : Cache Nat) "k" (fun _ => .error .Exhausted) 5
      .Exhausted).2.2.1 rfl rfl).1,
   ((C5_cache_contract { entries := [("k", 5)], hitCount := 0, missCount := 0 } "k"
      (fun _ => .error .Exhausted) 5 .Exhausted).2.2.2).1⟩

/-! ## Claim C6 -/

/-- If every query in the list searches to the empty result, the fallback
scan finds nothing. -/
theorem firstHit_eq_none (search : String → List Paper) :
    ∀ qs : List String, (∀ q ∈ qs, search q = []) → firstHit search qs = none := by
  intro qs
  induction qs with
  | nil => intro _; rfl
  | cons q qs ih =>
    intro h
    rw [firstHit, h q (by simp)]
    exact ih (fun q' hq' => h q' (by simp [hq']))

/-- Claim C6: the resolver fallback chain.  A non-empty `search(query)`
yields its top result without re-ranking; with an empty `search(query)`
the first component whose name searches non-empty supplies the seed (so
the resolver does not fail); only when the query, every component name
and every keyword search come back empty does it fail with
`NoPaperFound`. -/
theorem C6_resolver_fallback (search : String → List Paper) (query : String)
    (d : QueryDecompositionResponse) (p : Paper) (ps : List Paper) :
    (search query = p :: ps → resolve search query d = .ok p) ∧
    (∀ c rest, search query = [] → d.components = c :: rest →
        search c.component = p :: ps → resolve search query d = .ok p) ∧
    (search query = [] →
     (∀ c ∈ d.components, search c.component = []) →
     (∀ c ∈ d.components, ∀ k ∈ c.keywords, search k = []) →
        resolve search query d = .error .NoPaperFound) := by
  refine ⟨?_, ?_, ?_⟩
  · intro h
    rw [resolve, h]
  · intro c rest hq hcomp hc
    rw [resolve, hq, hcomp]
    simp only [List.map_cons]
    rw [firstHit, hc]
  · intro hq hnames hkeys
    rw [resolve, hq]
    rw [firstHit_eq_none search _ (by
      intro q hqmem
      obtain ⟨c, hc, rfl⟩ := List.mem_map.mp hqmem
      exact hnames c hc)]
    rw [firstHit_eq_none search _ (by
      intro q hqmem
      obtain ⟨c, hc, hk⟩ := List.mem_flatMap.mp hqmem
      exact hkeys c hc q hk)]

/-- Claim C6 witness: with a search function that is empty for the broad
query "llms in nns" but returns one paper for the component name "LLMs",
the resolver succeeds with that paper; a search returning a top result
directly yields it; the all-empty search fails with `NoPaperFound`. -/
theorem C6_resolver_fallback_witness :
    resolve (fun q => if q = "LLMs" then [paper1] else []) "llms in nns"
      { original_query := "llms in nns",
        components := [{ component := "LLMs", description := "d", keywords := ["kw"] }],
        main_concepts := [], relationships := [] }
      = .ok paper1 ∧
    resolve (fun _ => [paper0, paper1]) "q" emptyDecomposition = .ok paper0 ∧
    resolve (fun _ => []) "q" emptyDecomposition = .error .NoPaperFound :=
  ⟨(C6_resolver_fallback (fun q => if q = "LLMs" then [paper1] else []) "llms in nns"
      { original_query := "llms in nns",
        components := [{ component := "LLMs", description := "d", keywords := ["kw"] }],
        main_concepts := [], relationships := [] } paper1 []).2.1
      { component := "LLMs", description := "d", keywords := ["kw"] } [] rfl rfl rfl,
   (C6_resolver_fallback (fun _ => [paper0, paper1]) "q" emptyDecomposition paper0
      [paper1]).1 rfl,
   (C6_resolver_fallback (fun _ => []) "q" emptyDecomposition paper0 []).2.2 rfl
      (by intro c hc; simp [emptyDecomposition] at hc)
      (by intro c hc; simp [emptyDecomposition] at hc)⟩

/-! ## Engine lemmas shared by C2, C3 and C9 -/

/-- Looking a key up in a cache with a new head binding. -/
theorem lookupOp_cons (op0 : ApiOp) (v0 : List Paper) (rest : List (ApiOp × List Paper))
    (op : ApiOp) :
    lookupOp ((op0, v0) :: rest) op = if op0 = op then some v0 else lookupOp rest op := by
  by_cases h : op0 = op <;> simp [lookupOp, List.find?, h]

/-- A cache hit is served unchanged. -/
theorem cachedFetch_hit (oracle : Nat → ApiOp → Except FetchError (List Paper))
    (op : ApiOp) (s : EngineState) (v : List Paper)
    (h : lookupOp s.cache op = some v) :
    cachedFetch oracle op s = (.ok v, s) := by
  rw [cachedFetch, h]

/-- After a successful fetch the fetched value is cached under its key. -/
theorem cachedFetch_ok_lookup (oracle : Nat → ApiOp → Except FetchError (List Paper))
    (op : ApiOp) (s : EngineState) (v : List Paper) (s' : EngineState)
    (h : cachedFetch oracle op s = (.ok v, s')) :
    lookupOp s'.cache op = some v := by
  rw [cachedFetch] at h
  cases hl : lookupOp s.cache op with
  | some v0 =>
    rw [hl] at h
    simp only [Prod.mk.injEq, Except.ok.injEq] at h
    obtain ⟨rfl, rfl⟩ := h
    exact hl
  | none =>
    rw [hl] at h
    cases ho : oracle s.calls op with
    | ok v0 =>
      rw [ho] at h
      simp only [Prod.mk.injEq, Except.ok.injEq] at h
      obtain ⟨rfl, rfl⟩ := h
      simp [lookupOp_cons]
    | error e =>
      rw [ho] at h
      simp at h

/-- A fetch for one key never drops another key's cached value. -/
theorem cachedFetch_preserves_some (oracle : Nat → ApiOp → Except FetchError (List Paper))
    (op op' : ApiOp) (w : List Paper) (s : EngineState)
    (r : Except FetchError (List Paper)) (s' : EngineState)
    (hw : lookupOp s.cache op' = some w)
    (h : cachedFetch oracle op s = (r, s')) :
    lookupOp s'.cache op' = some w := by
  rw [cachedFetch] at h
  cases hl : lookupOp s.cache op with
  | some v0 =>
    rw [hl] at h
    simp only [Prod.mk.injEq] at h
    obtain ⟨-, rfl⟩ := h
    exact hw
  | none =>
    rw [hl] at h
    cases ho : oracle s.calls op with
    | ok v0 =>
      rw [ho] at h
      simp only [Prod.mk.injEq] at h
      obtain ⟨-, rfl⟩ := h
      rw [lookupOp_cons, if_neg, hw]
      intro contra
      rw [contra, hw] at hl
      exact Option.noConfusion hl
    | error e =>
      rw [ho] at h
      simp only [Prod.mk.injEq] at h
      obtain ⟨-, rfl⟩ := h
      exact hw

/-- Level-2 expansion never drops a cached value, whatever its outcome. -/
theorem expandLevel2_preserves_some (oracle : Nat → ApiOp → Except FetchError (List Paper))
    (nl : Nat) :
    ∀ (ps : List Paper) (s : EngineState)
      (r : Except FetchError (List PaperWithNestedCitations)) (s' : EngineState)
      (op' : ApiOp) (w : List Paper),
      expandLevel2 oracle nl ps s = (r, s') →
      lookupOp s.cache op' = some w → lookupOp s'.cache op' = some w := by
  intro ps
  induction ps with
  | nil =>
    intro s r s' op' w h hw
    simp only [expandLevel2, Prod.mk.injEq] at h
    obtain ⟨-, rfl⟩ := h
    exact hw
  | cons p ps ih =>
    intro s r s' op' w h hw
    rw [expandLevel2] at h
    rcases h1 : cachedFetch oracle (.citationsOf p.paperId) s with ⟨r1, s1⟩
    rw [h1] at h
    cases r1 with
    | error e =>
      simp only [Prod.mk.injEq] at h
      obtain ⟨-, rfl⟩ := h
      exact cachedFetch_preserves_some oracle _ op' w s _ _ hw h1
    | ok fwd =>
      dsimp only at h
      have hw1 : lookupOp s1.cache op' = some w :=
        cachedFetch_preserves_some oracle _ op' w s _ s1 hw h1
      rcases h2 : cachedFetch oracle (.referencesOf p.paperId) s1 with ⟨r2, s2⟩
      rw [h2] at h
      cases r2 with
      | error e =>
        simp only [Prod.mk.injEq] at h
        obtain ⟨-, rfl⟩ := h
        exact cachedFetch_preserves_some oracle _ op' w s1 _ _ hw1 h2
      | ok bwd =>
        dsimp only at h
        have hw2 : lookupOp s2.cache op' = some w :=
          cachedFetch_preserves_some oracle _ op' w s1 _ s2 hw1 h2
        rcases h3 : expandLevel2 oracle nl ps s2 with ⟨r3, s3⟩
        rw [h3] at h
        cases r3 with
        | error e =>
          simp only [Prod.mk.injEq] at h
          obtain ⟨-, rfl⟩ := h
          exact ih s2 _ _ op' w h3 hw2
        | ok rest =>
          simp only [Prod.mk.injEq] at h
          obtain ⟨-, rfl⟩ := h
          exact ih s2 _ _ op' w h3 hw2

/-- A whole graph build never drops a cached value, whatever its
outcome. -/
theorem buildGraph_preserves_some (oracle : Nat → ApiOp → Except FetchError (List Paper))
    (seed : Paper) (fl bl nl : Nat) (s : EngineState)
    (r : Except FetchError CitationGraph) (s' : EngineState)
    (op' : ApiOp) (w : List Paper)
    (h : buildGraph oracle seed fl bl nl s = (r, s'))
    (hw : lookupOp s.cache op' = some w) :
    lookupOp s'.cache op' = some w := by
  rw [buildGraph] at h
  rcases h1 : cachedFetch oracle (.citationsOf seed.paperId) s with ⟨r1, s1⟩
  rw [h1] at h
  cases r1 with
  | error e =>
    simp only [Prod.mk.injEq] at h
    obtain ⟨-, rfl⟩ := h
    exact cachedFetch_preserves_some oracle _ op' w s _ _ hw h1
  | ok fwdAll =>
    dsimp only at h
    have hw1 : lookupOp s1.cache op' = some w :=
      cachedFetch_preserves_some oracle _ op' w s _ s1 hw h1
    rcases h2 : cachedFetch oracle (.referencesOf seed.paperId) s1 with ⟨r2, s2⟩
    rw [h2] at h
    cases r2 with
    | error e =>
      simp only [Prod.mk.injEq] at h
      obtain ⟨-, rfl⟩ := h
      exact cachedFetch_preserves_some oracle _ op' w s1 _ _ hw1 h2
    | ok bwdAll =>
      dsimp only at h
      have hw2 : lookupOp s2.cache op' = some w :=
        cachedFetch_preserves_some oracle _ op' w s1 _ s2 hw1 h2
      rcases h3 : expandLevel2 oracle nl (fwdAll.take fl) s2 with ⟨r3, s3⟩
      rw [h3] at h
      cases r3 with
      | error e =>
        simp only [Prod.mk.injEq] at h
        obtain ⟨-, rfl⟩ := h
        exact expandLevel2_preserves_some oracle nl _ s2 _ _ op' w h3 hw2
      | ok fwdNested =>
        dsimp only at h
        have hw3 : lookupOp s3.cache op' = some w :=
          expandLevel2_preserves_some oracle nl _ s2 _ s3 op' w h3 hw2
        rcases h4 : expandLevel2 oracle nl (bwdAll.take bl) s3 with ⟨r4, s4⟩
        rw [h4] at h
        cases r4 with
        | error e =>
          simp only [Prod.mk.injEq] at h
          obtain ⟨-, rfl⟩ := h
          exact expandLevel2_preserves_some oracle nl _ s3 _ _ op' w h4 hw3
        | ok bwdNested =>
          simp only [Prod.mk.injEq] at h
          obtain ⟨-, rfl⟩ := h
          exact expandLevel2_preserves_some oracle nl _ s3 _ _ op' w h4 hw3

/-! ## Claim C2 -/

/-- A successful level-2 expansion returns one entry per input paper, each
with nested lists truncated to the nested limit. -/
theorem expandLevel2_ok_spec (oracle : Nat → ApiOp → Except FetchError (List Paper))
    (nl : Nat) :
    ∀ (ps : List Paper) (s : EngineState) (res : List PaperWithNestedCitations)
      (s' : EngineState),
      expandLevel2 oracle nl ps s = (.ok res, s') →
      res.length = ps.length ∧
      ∀ pw ∈ res, pw.nested_forward_citations.length ≤ nl ∧
        pw.nested_backward_citations.length ≤ nl := by
  intro ps
  induction ps with
  | nil =>
    intro s res s' h
    simp only [expandLevel2, Prod.mk.injEq, Except.ok.injEq] at h
    obtain ⟨rfl, -⟩ := h
    simp
  | cons p ps ih =>
    intro s res s' h
    rw [expandLevel2] at h
    rcases h1 : cachedFetch oracle (.citationsOf p.paperId) s with ⟨r1, s1⟩
    rw [h1] at h
    cases r1 with
    | error e => simp at h
    | ok fwd =>
      dsimp only at h
      rcases h2 : cachedFetch oracle (.referencesOf p.paperId) s1 with ⟨r2, s2⟩
      rw [h2] at h
      cases r2 with
      | error e => simp at h
      | ok bwd =>
        dsimp only at h
        rcases h3 : expandLevel2 oracle nl ps s2 with ⟨r3, s3⟩
        rw [h3] at h
        cases r3 with
        | error e => simp at h
        | ok rest =>
          simp only [Prod.mk.injEq, Except.ok.injEq] at h
          obtain ⟨rfl, -⟩ := h
          obtain ⟨hlen, hmem⟩ := ih s2 rest s3 h3
          refine ⟨by simp [hlen], ?_⟩
          intro pw hpw
          rcases List.mem_cons.mp hpw with hpw | hpw
          · subst hpw
            constructor <;> simp
          · exact hmem pw hpw

/-- Claim C2: on every successful build, the graph holds at most
`forwardLimit` forward citations and at most `backwardLimit` backward
citations, every nested list has length at most `nestedLimit`, and
`totalForward`/`totalBackward` equal the counts actually returned (which
the witness shows can be smaller than the requested limits). -/
theorem C2_limit_bounds (oracle : Nat → ApiOp → Except FetchError (List Paper))
    (seed : Paper) (fl bl nl : Nat) (s : EngineState) (g : CitationGraph)
    (h : (buildGraph oracle seed fl bl nl s).1 = .ok g) :
    g.forwardCitations.length ≤ fl ∧
    g.backwardCitations.length ≤ bl ∧
    (∀ pw ∈ g.forwardCitations, pw.nested_forward_citations.length ≤ nl ∧
        pw.nested_backward_citations.length ≤ nl) ∧
    (∀ pw ∈ g.backwardCitations, pw.nested_forward_citations.length ≤ nl ∧
        pw.nested_backward_citations.length ≤ nl) ∧
    g.totalForward = g.forwardCitations.length ∧
    g.totalBackward = g.backwardCitations.length := by
  rcases hb : buildGraph oracle seed fl bl nl s with ⟨r, sEnd⟩
  rw [hb] at h
  dsimp only at h
  subst h
  rw [buildGraph] at hb
  rcases h1 : cachedFetch oracle (.citationsOf seed.paperId) s with ⟨r1, s1⟩
  rw [h1] at hb
  cases r1 with
  | error e => simp at hb
  | ok fwdAll =>
    dsimp only at hb
    rcases h2 : cachedFetch oracle (.referencesOf seed.paperId) s1 with ⟨r2, s2⟩
    rw [h2] at hb
    cases r2 with
    | error e => simp at hb
    | ok bwdAll =>
      dsimp only at hb
      rcases h3 : expandLevel2 oracle nl (fwdAll.take fl) s2 with ⟨r3, s3⟩
      rw [h3] at hb
      cases r3 with
      | error e => simp at hb
      | ok fwdNested =>
        dsimp only at hb
        rcases h4 : expandLevel2 oracle nl (bwdAll.take bl) s3 with ⟨r4, s4⟩
        rw [h4] at hb
        cases r4 with
        | error e => simp at hb
        | ok bwdNested =>
          simp only [Prod.mk.injEq, Except.ok.injEq] at hb
          obtain ⟨hg, -⟩ := hb
          obtain ⟨hlen3, hmem3⟩ := expandLevel2_ok_spec oracle nl _ s2 fwdNested s3 h3
          obtain ⟨hlen4, hmem4⟩ := expandLevel2_ok_spec oracle nl _ s3 bwdNested s4 h4
          subst hg
          refine ⟨?_, ?_, hmem3, hmem4, rfl, rfl⟩
          · rw [hlen3]; simp
          · rw [hlen4]; simp

/-- Claim C2 witness: the well-behaved oracle returns only 2 forward
papers against a forward limit of 3, and the built graph satisfies every
bound with `totalForward = 2 < 3` — fewer than requested because the API
returned fewer. -/
theorem C2_limit_bounds_witness :
    (buildGraph okOracle paper0 3 3 2 { cache := [], calls := 0 }).1 = .ok graphW ∧
    (graphW.forwardCitations.length ≤ 3 ∧
     graphW.backwardCitations.length ≤ 3 ∧
     (∀ pw ∈ graphW.forwardCitations, pw.nested_forward_citations.length ≤ 2 ∧
         pw.nested_backward_citations.length ≤ 2) ∧
     (∀ pw ∈ graphW.backwardCitations, pw.nested_forward_citations.length ≤ 2 ∧
         pw.nested_backward_citations.length ≤ 2) ∧
     graphW.totalForward = graphW.forwardCitations.length ∧
     graphW.totalBackward = graphW.backwardCitations.length) ∧
    graphW.totalForward = 2 ∧ graphW.totalForward < 3 :=
  ⟨rfl,
   C2_limit_bounds okOracle paper0 3 3 2 { cache := [], calls := 0 } graphW rfl,
   rfl, by decide⟩

/-! ## Claim C3 -/

/-- A fetch of any key leaves an always-failing key uncached: only a
successful fetch of that very key could cache it. -/
theorem cachedFetch_preserves_none (oracle : Nat → ApiOp → Except FetchError (List Paper))
    (op op' : ApiOp) (e0 : FetchError) (s : EngineState)
    (r : Except FetchError (List Paper)) (s' : EngineState)
    (hnone : lookupOp s.cache op = none)
    (hfail : ∀ t, oracle t op = .error e0)
    (h : cachedFetch oracle op' s = (r, s')) :
    lookupOp s'.cache op = none := by
  rw [cachedFetch] at h
  cases hl : lookupOp s.cache op' with
  | some v0 =>
    rw [hl] at h
    simp only [Prod.mk.injEq] at h
    obtain ⟨-, rfl⟩ := h
    exact hnone
  | none =>
    rw [hl] at h
    cases ho : oracle s.calls op' with
    | ok v0 =>
      rw [ho] at h
      simp only [Prod.mk.injEq] at h
      obtain ⟨-, rfl⟩ := h
      rw [lookupOp_cons, if_neg, hnone]
      intro contra
      rw [contra, hfail s.calls] at ho
      exact Except.noConfusion ho
    | error e =>
      rw [ho] at h
      simp only [Prod.mk.injEq] at h
      obtain ⟨-, rfl⟩ := h
      exact hnone

/-- If the expansion list contains a paper whose citations fetch always
fails and is not cached, the whole level-2 expansion returns an error. -/
theorem expandLevel2_poison (oracle : Nat → ApiOp → Except FetchError (List Paper))
    (nl : Nat) (pid : String) (e0 : FetchError)
    (hfail : ∀ t, oracle t (.citationsOf pid) = .error e0) :
    ∀ (ps : List Paper) (s : EngineState),
      (∃ p ∈ ps, p.paperId = pid) →
      lookupOp s.cache (.citationsOf pid) = none →
      ∃ e s', expandLevel2 oracle nl ps s = (.error e, s') := by
  intro ps
  induction ps with
  | nil =>
    intro s hmem _
    obtain ⟨p, hp, -⟩ := hmem
    simp at hp
  | cons q ps ih =>
    intro s hmem hnone
    by_cases hq : q.paperId = pid
    · have hcf : cachedFetch oracle (.citationsOf q.paperId) s
          = (.error e0, { s with calls := s.calls + 1 }) := by
        rw [hq, cachedFetch, hnone, hfail s.calls]
      rw [expandLevel2, hcf]
      exact ⟨e0, { s with calls := s.calls + 1 }, rfl⟩
    · rw [expandLevel2]
      rcases h1 : cachedFetch oracle (.citationsOf q.paperId) s with ⟨r1, s1⟩
      cases r1 with
      | error e => exact ⟨e, s1, rfl⟩
      | ok fwd =>
        dsimp only
        have hn1 : lookupOp s1.cache (.citationsOf pid) = none :=
          cachedFetch_preserves_none oracle _ _ e0 s _ s1 hnone hfail h1
        rcases h2 : cachedFetch oracle (.referencesOf q.paperId) s1 with ⟨r2, s2⟩
        cases r2 with
        | error e => exact ⟨e, s2, rfl⟩
        | ok bwd =>
          dsimp only
          have hn2 : lookupOp s2.cache (.citationsOf pid) = none :=
            cachedFetch_preserves_none oracle _ _ e0 s1 _ s2 hn1 hfail h2
          have hmem' : ∃ p ∈ ps, p.paperId = pid := by
            obtain ⟨p, hp, hpid⟩ := hmem
            rcases List.mem_cons.mp hp with rfl | hp'
            · exact absurd hpid hq
            · exact ⟨p, hp', hpid⟩
          obtain ⟨e, sErr, hrec⟩ := ih s2 hmem' hn2
          rw [hrec]
          exact ⟨e, sErr, rfl⟩

/-- Claim C3: the graph build is all-or-nothing.  First, whatever the
outcome, every sub-fetch already cached before the build (and every one
cached during it) persists — cached sub-fetches survive a failed build
for future requests.  Second, if any level-1 paper's level-2 citations
fetch fails with a terminal `FetchError` (uncached and failing at every
attempt), the whole `buildGraph` call returns a single terminal error —
never a partial graph missing that node's nested data. -/
theorem C3_all_or_nothing (oracle : Nat → ApiOp → Except FetchError (List Paper))
    (seed : Paper) (fl bl nl : Nat) (s : EngineState)
    (pid : String) (fwdAll : List Paper) (e0 : FetchError) :
    (∀ r s', buildGraph oracle seed fl bl nl s = (r, s') →
        ∀ op v, lookupOp s.cache op = some v → lookupOp s'.cache op = some v) ∧
    (lookupOp s.cache (.citationsOf seed.paperId) = some fwdAll →
     (∃ p ∈ fwdAll.take fl, p.paperId = pid) →
     lookupOp s.cache (.citationsOf pid) = none →
     (∀ t, oracle t (.citationsOf pid) = .error e0) →
     ∃ e s', buildGraph oracle seed fl bl nl s = (.error e, s')) := by
  constructor
  · intro r s' h op v hv
    exact buildGraph_preserves_some oracle seed fl bl nl s r s' op v h hv
  · intro hcached hmem hnone hfail
    rw [buildGraph, cachedFetch_hit oracle _ s fwdAll hcached]
    dsimp only
    rcases h2 : cachedFetch oracle (.referencesOf seed.paperId) s with ⟨r2, s2⟩
    cases r2 with
    | error e => exact ⟨e, s2, rfl⟩
    | ok bwdAll =>
      dsimp only
      have hn2 : lookupOp s2.cache (.citationsOf pid) = none :=
        cachedFetch_preserves_none oracle _ _ e0 s _ s2 hnone hfail h2
      obtain ⟨e, sErr, h3⟩ :=
        expandLevel2_poison oracle nl pid e0 hfail (fwdAll.take fl) s2 hmem hn2
      rw [h3]
      exact ⟨e, sErr, rfl⟩

/-- Claim C3 witness: with the seed's three level-1 forward papers
pre-cached and the oracle permanently failing `citationsOf P2` with
`Exhausted`, the whole build returns `Exhausted` (evaluated directly),
and every cache entry present before the build is still served after
it. -/
theorem C3_all_or_nothing_witness :
    (∃ e s', buildGraph failingOracle paper0 3 3 2 poisonedState = (.error e, s')) ∧
    (buildGraph failingOracle paper0 3 3 2 poisonedState).1 = .error .Exhausted ∧
    lookupOp (buildGraph failingOracle paper0 3 3 2 poisonedState).2.cache
        (.citationsOf "P0") = some [paper1, paper2, paper3] :=
  ⟨(C3_all_or_nothing failingOracle paper0 3 3 2 poisonedState "P2"
      [paper1, paper2, paper3] .Exhausted).2 rfl
      ⟨paper2, by decide, rfl⟩ rfl (fun t => rfl),
   rfl,
   (C3_all_or_nothing failingOracle paper0 3 3 2 poisonedState "P2"
      [paper1, paper2, paper3] .Exhausted).1 _ _ rfl (.citationsOf "P0")
      [paper1, paper2, paper3] rfl⟩

/-! ## Claim C9 -/

/-- Replaying a successful level-2 expansion against any state whose
cache already holds every binding of the run's final cache serves every
fetch from cache: same result, state untouched. -/
theorem expandLevel2_replay (oracle : Nat → ApiOp → Except FetchError (List Paper))
    (nl : Nat) :
    ∀ (ps : List Paper) (s : EngineState) (res : List PaperWithNestedCitations)
      (s' σ : EngineState),
      expandLevel2 oracle nl ps s = (.ok res, s') →
      (∀ op w, lookupOp s'.cache op = some w → lookupOp σ.cache op = some w) →
      expandLevel2 oracle nl ps σ = (.ok res, σ) := by
  intro ps
  induction ps with
  | nil =>
    intro s res s' σ h _
    simp only [expandLevel2, Prod.mk.injEq, Except.ok.injEq] at h ⊢
    exact ⟨h.1, trivial⟩
  | cons p ps ih =>
    intro s res s' σ h hcov
    rw [expandLevel2] at h
    rcases h1 : cachedFetch oracle (.citationsOf p.paperId) s with ⟨r1, s1⟩
    rw [h1] at h
    cases r1 with
    | error e => simp at h
    | ok fwd =>
      dsimp only at h
      rcases h2 : cachedFetch oracle (.referencesOf p.paperId) s1 with ⟨r2, s2⟩
      rw [h2] at h
      cases r2 with
      | error e => simp at h
      | ok bwd =>
        dsimp only at h
        rcases h3 : expandLevel2 oracle nl ps s2 with ⟨r3, s3⟩
        rw [h3] at h
        cases r3 with
        | error e => simp at h
        | ok rest =>
          simp only [Prod.mk.injEq, Except.ok.injEq] at h
          obtain ⟨rfl, rfl⟩ := h
          have hf1 : lookupOp s3.cache (.citationsOf p.paperId) = some fwd :=
            expandLevel2_preserves_some oracle nl ps s2 _ s3 _ fwd h3
              (cachedFetch_preserves_some oracle _ _ fwd s1 _ s2
                (cachedFetch_ok_lookup oracle _ s fwd s1 h1) h2)
          have hf2 : lookupOp s3.cache (.referencesOf p.paperId) = some bwd :=
            expandLevel2_preserves_some oracle nl ps s2 _ s3 _ bwd h3
              (cachedFetch_ok_lookup oracle _ s1 bwd s2 h2)
          have hσ1 := hcov _ _ hf1
          have hσ2 := hcov _ _ hf2
          have hrec : expandLevel2 oracle nl ps σ = (.ok rest, σ) :=
            ih s2 rest s3 σ h3 hcov
          rw [expandLevel2, cachedFetch_hit oracle _ σ fwd hσ1]
          dsimp only
          rw [cachedFetch_hit oracle _ σ bwd hσ2]
          dsimp only
          rw [hrec]

/-- Claim C9: determinism via caching.  If a build succeeds, rebuilding
with identical inputs from the resulting state — the cache unmodified in
between — returns the byte-identical graph and leaves the state
untouched, even though the fetch oracle is indexed by the call counter
and could answer later calls differently: every fetch of the second run
is served from the cache populated by the first. -/
theorem C9_deterministic_rebuild (oracle : Nat → ApiOp → Except FetchError (List Paper))
    (seed : Paper) (fl bl nl : Nat) (s : EngineState) (g : CitationGraph)
    (s' : EngineState)
    (h : buildGraph oracle seed fl bl nl s = (.ok g, s')) :
    buildGraph oracle seed fl bl nl s' = (.ok g, s') := by
  rw [buildGraph] at h
  rcases h1 : cachedFetch oracle (.citationsOf seed.paperId) s with ⟨r1, s1⟩
  rw [h1] at h
  cases r1 with
  | error e => simp at h
  | ok fwdAll =>
    dsimp only at h
    rcases h2 : cachedFetch oracle (.referencesOf seed.paperId) s1 with ⟨r2, s2⟩
    rw [h2] at h
    cases r2 with
    | error e => simp at h
    | ok bwdAll =>
      dsimp only at h
      rcases h3 : expandLevel2 oracle nl (fwdAll.take fl) s2 with ⟨r3, s3⟩
      rw [h3] at h
      cases r3 with
      | error e => simp at h
      | ok fwdNested =>
        dsimp only at h
        rcases h4 : expandLevel2 oracle nl (bwdAll.take bl) s3 with ⟨r4, s4⟩
        rw [h4] at h
        cases r4 with
        | error e => simp at h
        | ok bwdNested =>
          simp only [Prod.mk.injEq, Except.ok.injEq] at h
          obtain ⟨rfl, rfl⟩ := h
          have a1 : lookupOp s4.cache (.citationsOf seed.paperId) = some fwdAll :=
            expandLevel2_preserves_some oracle nl _ s3 _ s4 _ fwdAll h4
              (expandLevel2_preserves_some oracle nl _ s2 _ s3 _ fwdAll h3
                (cachedFetch_preserves_some oracle _ _ fwdAll s1 _ s2
                  (cachedFetch_ok_lookup oracle _ s fwdAll s1 h1) h2))
          have a2 : lookupOp s4.cache (.referencesOf seed.paperId) = some bwdAll :=
            expandLevel2_preserves_some oracle nl _ s3 _ s4 _ bwdAll h4
              (expandLevel2_preserves_some oracle nl _ s2 _ s3 _ bwdAll h3
                (cachedFetch_ok_lookup oracle _ s1 bwdAll s2 h2))
          have e3 : expandLevel2 oracle nl (fwdAll.take fl) s4 = (.ok fwdNested, s4) :=
            expandLevel2_replay oracle nl _ s2 fwdNested s3 s4 h3
              (fun op w hw => expandLevel2_preserves_some oracle nl _ s3 _ s4 op w h4 hw)
          have e4 : expandLevel2 oracle nl (bwdAll.take bl) s4 = (.ok bwdNested, s4) :=
            expandLevel2_replay oracle nl _ s3 bwdNested s4 s4 h4 (fun op w hw => hw)
          rw [buildGraph, cachedFetch_hit oracle _ s4 fwdAll a1]
          dsimp only
          rw [cachedFetch_hit oracle _ s4 bwdAll a2]
          dsimp only
          rw [e3]
          dsimp only
          rw [e4]

/-- Claim C9 witness: rebuilding from the state left by the first
successful build of `graphW` returns exactly `(graphW, stateW)` again. -/
theorem C9_deterministic_rebuild_witness :
    buildGraph okOracle paper0 3 3 2 stateW = (.ok graphW, stateW) :=
  C9_deterministic_rebuild okOracle paper0 3 3 2 { cache := [], calls := 0 } graphW
    stateW rfl

/-! ## Claim C7 -/

/-- Claim C7 (counterexample): the program does impose an internal sort.
On a response whose API order is seed `P0` (rated Somewhat Relevant)
followed by forward citation `P1` (rated Perfectly Relevant), the list
view's `sortedPapers` reorders the papers by relevance rating, so the
displayed order differs from the response order. -/
theorem C7_internal_sort_exists :
    (allPapers sortResponse).map (fun pw => pw.paper.paperId) = ["P0", "P1"] ∧
    (sortedPapers sortResponse).map (fun pw => pw.paper.paperId) = ["P1", "P0"] ∧
    sortedPapers sortResponse ≠ allPapers sortResponse := by
  refine ⟨rfl, by decide, by decide⟩

/-- The comparator of PaperListView is transitive. -/
theorem paperLE_trans (a b c : PaperWithSource)
    (hab : paperLE a b = true) (hbc : paperLE b c = true) : paperLE a c = true := by
  simp only [paperLE] at hab hbc ⊢
  split_ifs at hab hbc ⊢ <;>
    simp only [decide_eq_true_eq] at hab hbc ⊢ <;> omega

/-- The comparator of PaperListView is total. -/
theorem paperLE_total (a b : PaperWithSource) :
    paperLE a b = true ∨ paperLE b a = true := by
  simp only [paperLE]
  split_ifs <;> simp only [decide_eq_true_eq] <;> omega

/-- Level-2 nodes never pass a level-1 filter. -/
theorem filter_nested_nil (dir dir' : String) (l : List Paper) :
    (l.map (nestedNode dir)).filter (fun n => n.level == 1 && n.direction == dir') = [] := by
  induction l with
  | nil => rfl
  | cons np l ih =>
    simp only [List.map_cons, List.filter_cons]
    simp [nestedNode, ih]

/-- Filtering the forward blocks for level-1 forward nodes recovers the
forward citations in response order. -/
theorem filter_forwardBlocks (fc : List PaperWithNestedCitations) :
    ((fc.flatMap forwardBlockNodes).filter
        (fun n => n.level == 1 && n.direction == "forward")).map GraphNode.id
      = fc.map (fun pw => pw.paper.paperId) := by
  induction fc with
  | nil => rfl
  | cons pw fc ih =>
    rw [List.flatMap_cons, List.filter_append, forwardBlockNodes,
      List.filter_cons_of_pos (by simp), List.filter_append,
      filter_nested_nil, filter_nested_nil]
    simp [ih]

/-- Level-1 forward nodes never occur in backward blocks. -/
theorem filter_backwardBlocks_fwd (bc : List PaperWithNestedCitations) :
    (bc.flatMap backwardBlockNodes).filter
        (fun n => n.level == 1 && n.direction == "forward") = [] := by
  induction bc with
  | nil => rfl
  | cons pw bc ih =>
    rw [List.flatMap_cons, List.filter_append, backwardBlockNodes,
      List.filter_cons_of_neg (by simp), List.filter_append,
      filter_nested_nil, filter_nested_nil, ih]
    rfl

/-- Filtering the backward blocks for level-1 backward nodes recovers the
backward citations in response order. -/
theorem filter_backwardBlocks (bc : List PaperWithNestedCitations) :
    ((bc.flatMap backwardBlockNodes).filter
        (fun n => n.level == 1 && n.direction == "backward")).map GraphNode.id
      = bc.map (fun pw => pw.paper.paperId) := by
  induction bc with
  | nil => rfl
  | cons pw bc ih =>
    rw [List.flatMap_cons, List.filter_append, backwardBlockNodes,
      List.filter_cons_of_pos (by simp), List.filter_append,
      filter_nested_nil, filter_nested_nil]
    simp [ih]

/-- Level-1 backward nodes never occur in forward blocks. -/
theorem filter_forwardBlocks_bwd (fc : List PaperWithNestedCitations) :
    (fc.flatMap forwardBlockNodes).filter
        (fun n => n.level == 1 && n.direction == "backward") = [] := by
  induction fc with
  | nil => rfl
  | cons pw fc ih =>
    rw [List.flatMap_cons, List.filter_append, forwardBlockNodes,
      List.filter_cons_of_neg (by simp), List.filter_append,
      filter_nested_nil, filter_nested_nil, ih]
    rfl

/-- Claim C7 (amended): the graph view preserves the API order exactly —
its level-1 forward and backward nodes appear in the order of the
response lists, with no sort — while the list view sorts the flattened
paper collection by relevance rating (Perfectly, then Relevant, then
Somewhat/unrated) with ties broken by descending citation count: its
output is a permutation of the response-ordered collection, arranged by
that comparator. -/
theorem C7_ordering (data : CitationSearchResponse) :
    ((graphNodesOf data).filter
        (fun n => n.level == 1 && n.direction == "forward")).map GraphNode.id
      = data.forward_citations.map (fun pw => pw.paper.paperId) ∧
    ((graphNodesOf data).filter
        (fun n => n.level == 1 && n.direction == "backward")).map GraphNode.id
      = data.backward_citations.map (fun pw => pw.paper.paperId) ∧
    (sortedPapers data).Perm (allPapers data) ∧
    (sortedPapers data).Pairwise (fun a b => paperLE a b = true) := by
  refine ⟨?_, ?_, ?_, ?_⟩
  · rw [graphNodesOf, List.filter_cons_of_neg (by simp), List.filter_append,
      filter_backwardBlocks_fwd, List.append_nil, filter_forwardBlocks]
  · rw [graphNodesOf, List.filter_cons_of_neg (by simp), List.filter_append,
      filter_forwardBlocks_bwd, List.nil_append, filter_backwardBlocks]
  · exact List.perm_insertionSort (fun a b => paperLE a b = true) (allPapers data)
  · exact @List.sorted_insertionSort PaperWithSource (fun a b => paperLE a b = true) _
      ⟨paperLE_total⟩ ⟨fun a b c => paperLE_trans a b c⟩ (allPapers data)
